import Mathlib

/-
Verification of the gateway/supervisor in `src/main.py` against its
natural-language specification.  The definitions below are a shallow
embedding of the Python source: module globals become explicit parameters,
the outcome of an outbound `requests.get` call becomes an oracle argument,
and exceptions become explicit result constructors.
-/

namespace Gateway

/-- Python `str.strip('/')` on a list of characters: drop every leading and
trailing `'/'` character. -/
def stripSlashList (l : List Char) : List Char :=
  ((l.dropWhile (fun c => c = '/')).reverse.dropWhile (fun c => c = '/')).reverse

/-- The `path = request.url.path.strip('/')` step of
`DynamicSubAppMiddleware.dispatch` (src/main.py line 116). -/
def stripSlashes (s : String) : String :=
  (stripSlashList s.toList).asString

/-- The `subapp_name = 'main' if path == '' else path.split('/')[0]` step of
`DynamicSubAppMiddleware.dispatch` (src/main.py line 117): `split('/')[0]` of
the stripped path is its longest prefix free of `'/'`. -/
def subappName (rawPath : String) : String :=
  let stripped := stripSlashes rawPath
  if stripped = "" then "main"
  else ((stripped.toList.takeWhile (fun c => c ≠ '/')).asString)

/-- The `SUBAPP_PORTS` dictionary (src/main.py lines 30-34), parameterized by
the three environment-derived port numbers.  `mainPort` is `MAIN_APP_PORT`,
the gateway's own port (default 8000); the subapp ports default to 8001 and
8002. -/
def SUBAPP_PORTS (mainPort subapp1Port subapp2Port : Nat) : List (String × Nat) :=
  [("main", mainPort), ("subapp1", subapp1Port), ("subapp2", subapp2Port)]

/-- `SUBAPP_PORTS` with every environment variable left at its default. -/
def defaultPorts : List (String × Nat) := SUBAPP_PORTS 8000 8001 8002

/-- Dictionary membership-plus-lookup (`subapp_name in SUBAPP_PORTS` and
`SUBAPP_PORTS[subapp_name]`).  The dictionary literal has distinct keys, so
first-match association-list lookup coincides with Python `dict` lookup. -/
def lookupPort (ports : List (String × Nat)) (name : String) : Option Nat :=
  match ports with
  | [] => none
  | (n, p) :: rest => if n = name then some p else lookupPort rest name

/-- An inbound HTTP request as `dispatch` sees it: the raw URL path plus the
method, body and headers that the spec says should be forwarded. -/
structure InboundRequest where
  path : String
  method : String
  body : Option String
  headers : List (String × String)
deriving DecidableEq

/-- The outbound call the dispatcher makes.  `requests.get(url)` at
src/main.py line 123 issues an HTTP GET with no body, no forwarded headers
and no `timeout=` argument. -/
structure OutboundRequest where
  method : String
  url : String
  body : Option String
  headers : List (String × String)
  timeoutSeconds : Option Nat
deriving DecidableEq

/-- What a `requests.get` call produces: a completed HTTP response with a
status code, or a raised `requests.RequestException` (connection failure,
timeout, ...). -/
inductive NetOutcome where
  | response (status : Nat)
  | netError
deriving DecidableEq

/-- `response.raise_for_status()` (src/main.py line 124) raises
`requests.HTTPError` exactly when `400 <= status_code < 600`; `HTTPError` is
a `RequestException`, so it lands in the `except` branch. -/
def raisesForStatus (status : Nat) : Bool :=
  decide (400 ≤ status) && decide (status < 600)

/-- The caller-visible result of one `dispatch` call.  `serviceUnavailable`
carries the backend name from the 503 `HTTPException` detail
`f"Subapp {subapp_name} is currently unavailable: ..."` (the appended
exception text is abstracted to the name it reports). `fallback` is
`await call_next(request)` (src/main.py line 130). -/
inductive DispatchResult where
  | backendResponse (status : Nat)
  | serviceUnavailable (subapp : String)
  | fallback
deriving DecidableEq

/-- The outbound request built at src/main.py lines 122-123:
`url = f"http://localhost:{SUBAPP_PORTS[subapp_name]}{request.url.path}"`
followed by `requests.get(url)` — method fixed to GET, no body, no headers,
no timeout, only the original path preserved. -/
def outboundFor (port : Nat) (rawPath : String) : OutboundRequest :=
  { method := "GET"
    url := "http://localhost:" ++ toString port ++ rawPath
    body := none
    headers := []
    timeoutSeconds := none }

/-- The known-backend branch of `dispatch` (src/main.py lines 119-128):
forward via `requests.get`, `raise_for_status`, return the response on
success, and turn any `RequestException` into a 503 naming the backend. -/
def dispatchKnown (subapp : String) (port : Nat) (rawPath : String)
    (outcome : NetOutcome) : DispatchResult × Option OutboundRequest :=
  match outcome with
  | NetOutcome.response s =>
      if raisesForStatus s then
        (DispatchResult.serviceUnavailable subapp, some (outboundFor port rawPath))
      else
        (DispatchResult.backendResponse s, some (outboundFor port rawPath))
  | NetOutcome.netError =>
      (DispatchResult.serviceUnavailable subapp, some (outboundFor port rawPath))

/-- `DynamicSubAppMiddleware.dispatch` (src/main.py lines 115-130).
`outcome` is what the single `requests.get` call produces for this request.
The second component records the outbound network request actually issued,
`none` when no network call is attempted.  Note the source consults no
circuit breaker and records no breaker outcome anywhere in this method:
`CustomCircuitBreaker` is defined in the module but never used by
`dispatch`. -/
def dispatch (ports : List (String × Nat)) (req : InboundRequest)
    (outcome : NetOutcome) : DispatchResult × Option OutboundRequest :=
  match lookupPort ports (subappName req.path) with
  | some port => dispatchKnown (subappName req.path) port req.path outcome
  | none => (DispatchResult.fallback, none)

/-- State of one breaker from the `circuitbreaker` library that
`CustomCircuitBreaker` (src/main.py lines 62-73) subclasses: a failure
counter, the raw open flag (`_state == STATE_OPEN`) and the time the breaker
opened.  The library rejects a call (raising `CircuitBreakerError`) exactly
when the open flag is set and the recovery timeout has not yet elapsed;
once it has elapsed the state reads as half-open and the next call goes
through. -/
structure Breaker where
  failureThreshold : Nat
  recoveryTimeout : Nat
  failureCount : Nat
  stateOpen : Bool
  openedAt : Nat
deriving DecidableEq

/-- A fresh breaker from `CustomCircuitBreaker.__init__` with the default
`failure_threshold=3, recovery_timeout=60` (src/main.py line 63). -/
def breakerInit : Breaker :=
  { failureThreshold := 3
    recoveryTimeout := 60
    failureCount := 0
    stateOpen := false
    openedAt := 0 }

/-- Whether a call at time `now` is rejected with `CircuitBreakerError`:
the breaker is open and `now - openedAt < recoveryTimeout`. -/
def Breaker.rejects (b : Breaker) (now : Nat) : Bool :=
  b.stateOpen && decide (now < b.openedAt + b.recoveryTimeout)

/-- Everything one call through `CustomCircuitBreaker.call` does:
the resulting breaker state, whether `send_alert` ran (the `except
CircuitBreakerError` handler at src/main.py lines 70-73), whether the
wrapped function was actually invoked, and whether the call raised. -/
structure CallStep where
  post : Breaker
  alerted : Bool
  networkCalled : Bool
  raised : Bool
deriving DecidableEq

/-- One call through `CustomCircuitBreaker.call` (src/main.py lines 67-73)
wrapping the `circuitbreaker` library's `call`: a rejected call leaves the
state untouched, sends one alert and re-raises; an executed call that
succeeds closes the breaker and resets the counter; an executed call that
fails increments the counter, opening the breaker with a fresh `openedAt`
when the threshold is reached, and re-raises the function's exception
(which is NOT a `CircuitBreakerError`, so no alert is sent on the tripping
call itself). -/
def Breaker.call (b : Breaker) (now : Nat) (funcSucceeds : Bool) : CallStep :=
  if b.rejects now then
    { post := b, alerted := true, networkCalled := false, raised := true }
  else if funcSucceeds then
    { post := { b with stateOpen := false, failureCount := 0 }
      alerted := false, networkCalled := true, raised := false }
  else
    let fc := b.failureCount + 1
    if b.failureThreshold ≤ fc then
      { post := { b with failureCount := fc, stateOpen := true, openedAt := now }
        alerted := false, networkCalled := true, raised := true }
    else
      { post := { b with failureCount := fc }
        alerted := false, networkCalled := true, raised := true }

/-- Run a sequence of `(now, funcSucceeds)` events through one breaker.
Returns the final state, the number of alerts `CustomCircuitBreaker.call`
sent, and the number of Closed-to-Open transitions (trips: the open flag
goes from false to true). -/
def runCalls (b : Breaker) : List (Nat × Bool) → Breaker × Nat × Nat
  | [] => (b, 0, 0)
  | (now, ok) :: rest =>
      let st := b.call now ok
      let t := if !b.stateOpen && st.post.stateOpen then 1 else 0
      let a := if st.alerted then 1 else 0
      let r := runCalls st.post rest
      (r.1, a + r.2.1, t + r.2.2)

/-- The breaker state after three consecutive failed calls from a fresh
default breaker: open, with `openedAt = 2`. -/
def openBreaker : Breaker :=
  (runCalls breakerInit [(0, false), (1, false), (2, false)]).1

/-- Three consecutive failures (the third trips the breaker) followed by two
calls made while the breaker is open. -/
def c2events : List (Nat × Bool) :=
  [(0, false), (1, false), (2, false), (3, false), (4, false)]

/-- What one tick of the health-monitor loop did: which backends were
actually probed, which completed probes were logged as non-200 failures,
and which backends had `restart_service` invoked. -/
structure TickResult where
  probed : List String
  loggedNon200 : List String
  restarts : List String
deriving DecidableEq

/-- One tick of `DynamicSubAppMiddleware.health_check` (src/main.py lines
220-231).  The `except requests.RequestException` sits OUTSIDE the `for`
loop, so the first probe that raises aborts the iteration and triggers
`self.restart_service(subapp_name)` for the backend held by the leaked loop
variable — the one whose probe raised.  A probe that completes with a
non-200 status is only logged (line 227); no restart happens for it. -/
def health_check_tick (backends : List (String × Nat))
    (probe : String → NetOutcome) : TickResult :=
  match backends with
  | [] => { probed := [], loggedNon200 := [], restarts := [] }
  | (name, _) :: rest =>
      match probe name with
      | NetOutcome.netError =>
          { probed := [name], loggedNon200 := [], restarts := [name] }
      | NetOutcome.response s =>
          let r := health_check_tick rest probe
          { probed := name :: r.probed
            loggedNon200 := if s ≠ 200 then name :: r.loggedNon200 else r.loggedNon200
            restarts := r.restarts }

/-- The backends probed before the tick aborts: every name up to and
including the first one whose probe raises. -/
def probedUntilError : List String → (String → NetOutcome) → List String
  | [], _ => []
  | n :: rest, probe =>
      match probe n with
      | NetOutcome.netError => [n]
      | NetOutcome.response _ => n :: probedUntilError rest probe

/-- The first backend in iteration order whose probe raises, as a list of
at most one element. -/
def firstNetError : List String → (String → NetOutcome) → List String
  | [], _ => []
  | n :: rest, probe =>
      match probe n with
      | NetOutcome.netError => [n]
      | NetOutcome.response _ => firstNetError rest probe

/-- A probe oracle under which every backend answers 500. -/
def probeAll500 : String → NetOutcome := fun _ => NetOutcome.response 500

/-- A probe oracle under which `subapp1`'s probe raises and every other
backend answers 200. -/
def probeSubapp1Err : String → NetOutcome :=
  fun n => if n = "subapp1" then NetOutcome.netError else NetOutcome.response 200

/-- The `restart_policy` block of `generate_docker_compose`
(src/main.py lines 140-145). -/
structure RestartPolicySpec where
  condition : String
  delay : String
  maxAttempts : Nat
  window : String
deriving DecidableEq

/-- The `healthcheck` block of `generate_docker_compose`
(src/main.py lines 147-153). -/
structure HealthCheckSpec where
  test : List String
  interval : String
  timeout : String
  retries : Nat
  startPeriod : String
deriving DecidableEq

/-- One entry of the `services` mapping of the generated compose file. -/
structure ServiceSpec where
  name : String
  build : String
  ports : List String
  replicas : Nat
  restartPolicy : RestartPolicySpec
  healthcheck : HealthCheckSpec
deriving DecidableEq

/-- The generated compose document (src/main.py lines 156-159). -/
structure ComposeFile where
  version : String
  services : List ServiceSpec
deriving DecidableEq

/-- The loop body of `generate_docker_compose` (src/main.py lines 134-154)
for one `(subapp_name, port)` entry of `SUBAPP_PORTS`. -/
def serviceSpecFor (subapp : String) (port : Nat) (scalingFactor : Nat) : ServiceSpec :=
  { name := subapp
    build := if subapp ≠ "main" then "./subapps/" ++ subapp else "."
    ports := [toString port ++ ":8000"]
    replicas := scalingFactor
    restartPolicy :=
      { condition := "on-failure", delay := "5s", maxAttempts := 3, window := "120s" }
    healthcheck :=
      { test := ["CMD-SHELL",
                 "curl --fail http://localhost:" ++ toString port ++ "/health || exit 1"]
        interval := "30s", timeout := "10s", retries := 3, startPeriod := "10s" } }

/-- `DynamicSubAppMiddleware.generate_docker_compose` (src/main.py lines
132-164), with the module globals `SUBAPP_PORTS` and `SCALING_FACTOR`
passed explicitly: one service per route entry, each with `replicas` equal
to the scaling factor. -/
def generate_docker_compose (subappPorts : List (String × Nat))
    (scalingFactor : Nat) : ComposeFile :=
  { version := "3.8"
    services := subappPorts.map (fun np => serviceSpecFor np.1 np.2 scalingFactor) }

/-- The concrete restart-policy block every generated service carries. -/
def fixedRestartPolicy : RestartPolicySpec :=
  { condition := "on-failure", delay := "5s", maxAttempts := 3, window := "120s" }

/-- Outcome of `DynamicSubAppMiddleware.stop_services` (src/main.py lines
193-199): on orchestrator failure it logs the error and then RE-RAISES the
`CalledProcessError` (`raise` at line 199). -/
structure StopResult where
  loggedError : Bool
  raisedError : Option String
deriving DecidableEq

/-- `stop_services` with `downOk` the success of the external
`docker-compose down` invocation; `raisedError` is the exception the method
re-raises, `none` when it returns normally. -/
def stop_services (downOk : Bool) : StopResult :=
  if downOk then { loggedError := false, raisedError := none }
  else { loggedError := true, raisedError := some "CalledProcessError" }

/-- How the signal handler terminates: a clean `sys.exit(code)`, or an
uncaught exception propagating out of the handler. -/
inductive ShutdownOutcome where
  | exited (code : Nat)
  | raised (errorName : String)
deriving DecidableEq

/-- `DynamicSubAppMiddleware.graceful_shutdown` (src/main.py lines 237-241):
it calls `self.stop_services()` with no `try`, so a teardown failure
propagates out of the handler and line 241 is never reached.  When
`stop_services` succeeds, line 241 executes `sys.exit(0)` — but the module
never imports `sys`, so that line itself raises `NameError` instead of
exiting. -/
def graceful_shutdown (downOk : Bool) : ShutdownOutcome :=
  match (stop_services downOk).raisedError with
  | some e => ShutdownOutcome.raised e
  | none => ShutdownOutcome.raised "NameError"

/-- A GET request to a path under `subapp1`. -/
def exReqC1 : InboundRequest :=
  { path := "/subapp1/items", method := "GET", body := none, headers := [] }

/-- A GET request to a path under `subapp2`. -/
def exReqC1w : InboundRequest :=
  { path := "/subapp2/x", method := "GET", body := none, headers := [] }

/-- A GET request to a path under `subapp1` used for the C3 theorems. -/
def exReqC3 : InboundRequest :=
  { path := "/subapp1/ok", method := "GET", body := none, headers := [] }

/-- A POST request with a body and a header, to a path under `subapp1`. -/
def exReqC4 : InboundRequest :=
  { path := "/subapp1/submit", method := "POST", body := some "payload"
    headers := [("X-Token", "t1")] }

/-- A request whose first path segment names no known backend. -/
def exReqC7 : InboundRequest :=
  { path := "/billing/invoice", method := "GET", body := none, headers := [] }

/-- A request with an empty path (the root URL `/`). -/
def exReqC9 : InboundRequest :=
  { path := "/", method := "GET", body := none, headers := [] }

/-- When the route lookup finds a port, `dispatch` is the known-backend
branch. -/
theorem dispatch_known (ports : List (String × Nat)) (req : InboundRequest)
    (outcome : NetOutcome) (port : Nat)
    (h : lookupPort ports (subappName req.path) = some port) :
    dispatch ports req outcome = dispatchKnown (subappName req.path) port req.path outcome := by
  unfold dispatch
  rw [h]

/-- Every dispatch to a known backend issues exactly the outbound request of
`outboundFor`, whatever the call's outcome. -/
theorem dispatch_attempts (ports : List (String × Nat)) (req : InboundRequest)
    (outcome : NetOutcome) (port : Nat)
    (h : lookupPort ports (subappName req.path) = some port) :
    (dispatch ports req outcome).2 = some (outboundFor port req.path) := by
  rw [dispatch_known ports req outcome port h]
  cases outcome with
  | response s =>
      dsimp only [dispatchKnown]
      split <;> rfl
  | netError => rfl

/-- A dispatch to a known backend never falls through to `call_next`. -/
theorem dispatch_known_not_fallback (ports : List (String × Nat)) (req : InboundRequest)
    (outcome : NetOutcome) (port : Nat)
    (h : lookupPort ports (subappName req.path) = some port) :
    (dispatch ports req outcome).1 ≠ DispatchResult.fallback := by
  rw [dispatch_known ports req outcome port h]
  cases outcome with
  | response s =>
      dsimp only [dispatchKnown]
      split <;> simp
  | netError => simp [dispatchKnown]

/-- The tick's restart list is the first backend, in iteration order, whose
probe raised. -/
theorem tick_restarts_eq (backends : List (String × Nat)) (probe : String → NetOutcome) :
    (health_check_tick backends probe).restarts = firstNetError (backends.map Prod.fst) probe := by
  induction backends with
  | nil => rfl
  | cons hd tl ih =>
      obtain ⟨name, port⟩ := hd
      cases hp : probe name with
      | netError => simp [health_check_tick, firstNetError, hp]
      | response s => simp [health_check_tick, firstNetError, hp, ih]

/-- The tick probes exactly the backends up to and including the first one
whose probe raised. -/
theorem tick_probed_eq (backends : List (String × Nat)) (probe : String → NetOutcome) :
    (health_check_tick backends probe).probed = probedUntilError (backends.map Prod.fst) probe := by
  induction backends with
  | nil => rfl
  | cons hd tl ih =>
      obtain ⟨name, port⟩ := hd
      cases hp : probe name with
      | netError => simp [health_check_tick, probedUntilError, hp]
      | response s => simp [health_check_tick, probedUntilError, hp, ih]

/-- `firstNetError` holds at most one name. -/
theorem firstNetError_length (names : List String) (probe : String → NetOutcome) :
    (firstNetError names probe).length ≤ 1 := by
  induction names with
  | nil => simp [firstNetError]
  | cons n rest ih =>
      cases hp : probe n with
      | netError => simp [firstNetError, hp]
      | response s => simpa [firstNetError, hp] using ih

/-- A member of `firstNetError` is a backend whose probe raised, and is its
only member. -/
theorem firstNetError_mem (names : List String) (probe : String → NetOutcome)
    (name : String) (h : name ∈ firstNetError names probe) :
    probe name = NetOutcome.netError ∧ firstNetError names probe = [name] := by
  induction names with
  | nil => simp [firstNetError] at h
  | cons n rest ih =>
      cases hp : probe n with
      | netError =>
          have he : firstNetError (n :: rest) probe = [n] := by
            simp [firstNetError, hp]
          rw [he] at h
          simp at h
          subst h
          exact ⟨hp, he⟩
      | response s =>
          have he : firstNetError (n :: rest) probe = firstNetError rest probe := by
            simp [firstNetError, hp]
          rw [he] at h
          rw [he]
          exact ih h

/-- C1 (counterexample): after three consecutive failures, `subapp1`'s
breaker is open and still rejecting at time 10, yet `dispatch` for a
`/subapp1/...` request attempts the outbound call and returns the backend's
200 response instead of a service-unavailable — `dispatch` never consults
`isCallPermitted` or any breaker. -/
theorem c1_counterexample :
    openBreaker.rejects 10 = true
    ∧ (dispatch defaultPorts exReqC1 (NetOutcome.response 200)).2
        = some (outboundFor 8001 "/subapp1/items")
    ∧ (dispatch defaultPorts exReqC1 (NetOutcome.response 200)).1
        = DispatchResult.backendResponse 200 := by
  decide

/-- C1 (amended): `dispatch` consults no circuit breaker at all — for every
request whose first path segment names a known backend, an outbound network
call is attempted regardless of any breaker's state, and the request never
falls through to the fallback handler. -/
theorem c1_amended (ports : List (String × Nat)) (req : InboundRequest)
    (outcome : NetOutcome) (port : Nat)
    (h : lookupPort ports (subappName req.path) = some port) :
    (dispatch ports req outcome).2 = some (outboundFor port req.path)
    ∧ (dispatch ports req outcome).1 ≠ DispatchResult.fallback :=
  ⟨dispatch_attempts ports req outcome port h,
   dispatch_known_not_fallback ports req outcome port h⟩

/-- C1 (witness): the amended theorem applied to a concrete request to
`subapp2` whose outbound call fails. -/
theorem c1_witness :
    lookupPort defaultPorts (subappName exReqC1w.path) = some 8002
    ∧ ((dispatch defaultPorts exReqC1w NetOutcome.netError).2
          = some (outboundFor 8002 exReqC1w.path)
       ∧ (dispatch defaultPorts exReqC1w NetOutcome.netError).1
          ≠ DispatchResult.fallback) :=
  ⟨by decide, c1_amended defaultPorts exReqC1w NetOutcome.netError 8002 (by decide)⟩

/-- C2 (counterexample): three failures trip a fresh default breaker (one
Closed-to-Open transition) and two further calls are made while it is open:
`CustomCircuitBreaker` sends two alerts for the single trip, not one. -/
theorem c2_counterexample :
    (runCalls breakerInit c2events).2.2 = 1
    ∧ (runCalls breakerInit c2events).2.1 = 2 := by
  decide

/-- C2 (amended): `CustomCircuitBreaker.call` sends an alert exactly when a
call is rejected by an open breaker (`CircuitBreakerError` caught), so no
alert accompanies the Closed-to-Open transition itself (the tripping call is
not a rejection), and every rejected call sends one more alert while leaving
the breaker state unchanged and making no network call. -/
theorem c2_amended (b : Breaker) (now : Nat) (ok : Bool) :
    ((b.call now ok).alerted = b.rejects now)
    ∧ (b.stateOpen = false → (b.call now ok).alerted = false)
    ∧ (b.rejects now = true →
        (b.call now ok).networkCalled = false ∧ (b.call now ok).post = b) := by
  cases hr : b.rejects now with
  | true =>
      have hopen : b.stateOpen = true := by
        unfold Breaker.rejects at hr
        exact ((Bool.and_eq_true _ _).mp hr).1
      refine ⟨by simp [Breaker.call, hr], ?_, ?_⟩
      · intro hfalse
        rw [hopen] at hfalse
        exact Bool.noConfusion hfalse
      · intro _
        exact ⟨by simp [Breaker.call, hr], by simp [Breaker.call, hr]⟩
  | false =>
      refine ⟨?_, ?_, ?_⟩
      · cases ok with
        | true => simp [Breaker.call, hr]
        | false =>
            dsimp only [Breaker.call]
            rw [hr]
            simp only [Bool.false_eq_true, if_false]
            split <;> rfl
      · intro _
        cases ok with
        | true => simp [Breaker.call, hr]
        | false =>
            dsimp only [Breaker.call]
            rw [hr]
            simp only [Bool.false_eq_true, if_false]
            split <;> rfl
      · intro hcontra
        exact absurd hcontra (by simp [hr])

/-- C3 (counterexample): a backend's 404 response is not returned verbatim:
`raise_for_status()` raises on every 4xx, so `dispatch` turns it into a 503
naming the backend (and the source records no breaker outcome anywhere). -/
theorem c3_counterexample :
    (dispatch defaultPorts exReqC3 (NetOutcome.response 404)).1
        = DispatchResult.serviceUnavailable "subapp1"
    ∧ (dispatch defaultPorts exReqC3 (NetOutcome.response 404)).1
        ≠ DispatchResult.backendResponse 404 := by
  decide

/-- C3 (amended): for a known backend, a response with status below 400
(2xx/3xx) is returned verbatim with its status code, while any 4xx or 5xx
response makes `raise_for_status` raise and `dispatch` returns the 503
service-unavailable naming the backend; no success outcome is recorded on
any breaker, since `dispatch` touches no breaker state. -/
theorem c3_amended (ports : List (String × Nat)) (req : InboundRequest) (port : Nat)
    (h : lookupPort ports (subappName req.path) = some port) (s : Nat) :
    (s < 400 →
      (dispatch ports req (NetOutcome.response s)).1 = DispatchResult.backendResponse s)
    ∧ (400 ≤ s → s < 600 →
      (dispatch ports req (NetOutcome.response s)).1
        = DispatchResult.serviceUnavailable (subappName req.path)) := by
  rw [dispatch_known ports req (NetOutcome.response s) port h]
  constructor
  · intro hs
    have hlt : ¬ (400 ≤ s) := Nat.not_le.mpr hs
    simp [dispatchKnown, raisesForStatus, hlt]
  · intro h4 h6
    simp [dispatchKnown, raisesForStatus, h4, h6]

/-- C3 (witness): the amended theorem applied to a concrete 201 response
from `subapp1`. -/
theorem c3_witness :
    lookupPort defaultPorts (subappName exReqC3.path) = some 8001
    ∧ (dispatch defaultPorts exReqC3 (NetOutcome.response 201)).1
        = DispatchResult.backendResponse 201 :=
  ⟨by decide, (c3_amended defaultPorts exReqC3 8001 (by decide) 201).1 (by decide)⟩

/-- C4 (counterexample): a POST request with a body and a header to
`subapp1` is forwarded as a bare GET: the outbound request issued by
`requests.get(url)` preserves neither method, nor body, nor headers, and
carries no timeout. -/
theorem c4_counterexample :
    exReqC4.method = "POST"
    ∧ (dispatch defaultPorts exReqC4 (NetOutcome.response 200)).2
        = some (outboundFor 8001 exReqC4.path)
    ∧ (outboundFor 8001 exReqC4.path).method ≠ exReqC4.method
    ∧ (outboundFor 8001 exReqC4.path).body ≠ exReqC4.body
    ∧ (outboundFor 8001 exReqC4.path).headers ≠ exReqC4.headers
    ∧ (outboundFor 8001 exReqC4.path).timeoutSeconds = none := by
  decide

/-- C4 (amended): every permitted dispatch to a known backend forwards to
`http://localhost:<port><original path>`, but always as an HTTP GET with no
forwarded body, no forwarded headers and no timeout: only the URL path of
the inbound request is preserved. -/
theorem c4_amended (ports : List (String × Nat)) (req : InboundRequest)
    (outcome : NetOutcome) (port : Nat)
    (h : lookupPort ports (subappName req.path) = some port) :
    (dispatch ports req outcome).2 = some (outboundFor port req.path)
    ∧ (outboundFor port req.path).method = "GET"
    ∧ (outboundFor port req.path).url = "http://localhost:" ++ toString port ++ req.path
    ∧ (outboundFor port req.path).body = none
    ∧ (outboundFor port req.path).headers = []
    ∧ (outboundFor port req.path).timeoutSeconds = none :=
  ⟨dispatch_attempts ports req outcome port h, rfl, rfl, rfl, rfl, rfl⟩

/-- C4 (witness): the amended theorem applied to the concrete POST request. -/
theorem c4_witness :
    lookupPort defaultPorts (subappName exReqC4.path) = some 8001
    ∧ ((dispatch defaultPorts exReqC4 (NetOutcome.response 200)).2
          = some (outboundFor 8001 exReqC4.path)
       ∧ (outboundFor 8001 exReqC4.path).method = "GET"
       ∧ (outboundFor 8001 exReqC4.path).url
          = "http://localhost:" ++ toString 8001 ++ exReqC4.path
       ∧ (outboundFor 8001 exReqC4.path).body = none
       ∧ (outboundFor 8001 exReqC4.path).headers = []
       ∧ (outboundFor 8001 exReqC4.path).timeoutSeconds = none) :=
  ⟨by decide, c4_amended defaultPorts exReqC4 (NetOutcome.response 200) 8001 (by decide)⟩

/-- C5 (counterexample): with every backend's probe completing with status
500 (non-2xx), the tick logs all three failures but invokes zero restarts —
a completed non-200 probe never triggers `restart_service`. -/
theorem c5_counterexample :
    (health_check_tick defaultPorts probeAll500).loggedNon200
        = ["main", "subapp1", "subapp2"]
    ∧ (health_check_tick defaultPorts probeAll500).restarts = [] := by
  decide

/-- C5 (amended): a restart is invoked only for a backend whose probe raised
a network error — never for a completed non-200 probe — and a tick invokes
at most that one restart, because the exception handler sits outside the
probe loop. -/
theorem c5_amended (backends : List (String × Nat)) (probe : String → NetOutcome)
    (name : String)
    (h : name ∈ (health_check_tick backends probe).restarts) :
    probe name = NetOutcome.netError
    ∧ (health_check_tick backends probe).restarts = [name] := by
  have hm := firstNetError_mem (backends.map Prod.fst) probe name
    (tick_restarts_eq backends probe ▸ h)
  refine ⟨hm.1, ?_⟩
  rw [tick_restarts_eq backends probe]
  exact hm.2

/-- C5 (witness): the amended theorem applied to the probe oracle under
which only `subapp1`'s probe raises. -/
theorem c5_witness :
    "subapp1" ∈ (health_check_tick defaultPorts probeSubapp1Err).restarts
    ∧ (probeSubapp1Err "subapp1" = NetOutcome.netError
       ∧ (health_check_tick defaultPorts probeSubapp1Err).restarts = ["subapp1"]) :=
  ⟨by decide, c5_amended defaultPorts probeSubapp1Err "subapp1" (by decide)⟩

/-- C6 (counterexample): when `docker-compose down` fails during shutdown,
`stop_services` logs the error but re-raises it, and `graceful_shutdown`
does not catch it: the handler ends by raising `CalledProcessError`, never
reaching the exit call. -/
theorem c6_counterexample :
    (stop_services false).loggedError = true
    ∧ (stop_services false).raisedError = some "CalledProcessError"
    ∧ graceful_shutdown false = ShutdownOutcome.raised "CalledProcessError"
    ∧ graceful_shutdown false ≠ ShutdownOutcome.exited 0 := by
  decide

/-- C6 (amended): a teardown failure during shutdown IS logged, but it is
also escalated: `stop_services` re-raises the orchestrator error and
`graceful_shutdown` does not catch it, so the graceful-shutdown path raises
instead of reaching `sys.exit(0)` — no exit code is ever produced on the
failing path. -/
theorem c6_amended (downOk : Bool) :
    (stop_services downOk).loggedError = !downOk
    ∧ graceful_shutdown false = ShutdownOutcome.raised "CalledProcessError"
    ∧ (∀ code : Nat, graceful_shutdown false ≠ ShutdownOutcome.exited code) := by
  refine ⟨?_, by decide, ?_⟩
  · cases downOk <;> rfl
  · intro code
    simp [graceful_shutdown, stop_services]

/-- C7: a request whose first path segment names no known backend is passed
to the fallback handler (`await call_next(request)`) with no outbound call
and no error. -/
theorem c7_thm (ports : List (String × Nat)) (req : InboundRequest)
    (outcome : NetOutcome)
    (h : lookupPort ports (subappName req.path) = none) :
    dispatch ports req outcome = (DispatchResult.fallback, none) := by
  unfold dispatch
  rw [h]

/-- C7 (witness): the theorem applied to a concrete `/billing/...` request,
`billing` not being a key of the route table. -/
theorem c7_witness :
    lookupPort defaultPorts (subappName exReqC7.path) = none
    ∧ dispatch defaultPorts exReqC7 (NetOutcome.response 200)
        = (DispatchResult.fallback, none) :=
  ⟨by decide, c7_thm defaultPorts exReqC7 (NetOutcome.response 200) (by decide)⟩

/-- C8: manifest generation yields exactly one service per route entry, each
with `replicas` equal to the scaling factor, the fixed on-failure restart
policy (delay 5s, 3 attempts, 120s window) and a health probe (CMD-SHELL
command, 30s interval, 10s timeout, 3 retries, 10s start period); in
particular the route table `{main: 8000, billing: 8001}` with scaling factor
2 yields two services each with 2 replicas. -/
theorem c8_thm (subappPorts : List (String × Nat)) (sf : Nat) :
    (generate_docker_compose subappPorts sf).services.length = subappPorts.length
    ∧ (∀ svc ∈ (generate_docker_compose subappPorts sf).services,
        svc.replicas = sf
        ∧ svc.restartPolicy = fixedRestartPolicy
        ∧ svc.healthcheck.test.head? = some "CMD-SHELL"
        ∧ svc.healthcheck.interval = "30s"
        ∧ svc.healthcheck.timeout = "10s"
        ∧ svc.healthcheck.retries = 3
        ∧ svc.healthcheck.startPeriod = "10s")
    ∧ ((generate_docker_compose [("main", 8000), ("billing", 8001)] 2).services.map
        (fun s => (s.name, s.replicas)) = [("main", 2), ("billing", 2)]) := by
  refine ⟨by simp [generate_docker_compose], ?_, by decide⟩
  intro svc hsvc
  simp only [generate_docker_compose, List.mem_map] at hsvc
  obtain ⟨np, _, rfl⟩ := hsvc
  exact ⟨rfl, rfl, rfl, rfl, rfl, rfl, rfl⟩

/-- C9: the empty path and every path whose first segment is `main` resolve
to the known backend `main`, so dispatch forwards the request to
`http://localhost:<MAIN_APP_PORT><path>` — the gateway's own port — rather
than passing it to the fallback handler. -/
theorem c9_thm (mainPort subapp1Port subapp2Port : Nat) (req : InboundRequest)
    (outcome : NetOutcome) (h : subappName req.path = "main") :
    (dispatch (SUBAPP_PORTS mainPort subapp1Port subapp2Port) req outcome).2
        = some (outboundFor mainPort req.path)
    ∧ (dispatch (SUBAPP_PORTS mainPort subapp1Port subapp2Port) req outcome).1
        ≠ DispatchResult.fallback := by
  have hl : lookupPort (SUBAPP_PORTS mainPort subapp1Port subapp2Port)
      (subappName req.path) = some mainPort := by
    rw [h]
    rfl
  exact ⟨dispatch_attempts _ req outcome mainPort hl,
         dispatch_known_not_fallback _ req outcome mainPort hl⟩

/-- C9 (witness): the theorem applied to the concrete root request `/`,
whose stripped path is empty and therefore resolves to `main`. -/
theorem c9_witness :
    subappName exReqC9.path = "main"
    ∧ ((dispatch (SUBAPP_PORTS 8000 8001 8002) exReqC9 (NetOutcome.response 200)).2
          = some (outboundFor 8000 exReqC9.path)
       ∧ (dispatch (SUBAPP_PORTS 8000 8001 8002) exReqC9 (NetOutcome.response 200)).1
          ≠ DispatchResult.fallback) :=
  ⟨by decide, c9_thm 8000 8001 8002 exReqC9 (NetOutcome.response 200) (by decide)⟩

/-- C10: in every health-monitor tick, the restarted backends are exactly
the first one in iteration order whose probe raised a network error (so at
most one restart per tick, and a completed non-200 probe never triggers
one), and probing stops at that backend: the tick probes exactly the
backends up to and including the first network error. -/
theorem c10_thm (backends : List (String × Nat)) (probe : String → NetOutcome) :
    (health_check_tick backends probe).restarts
        = firstNetError (backends.map Prod.fst) probe
    ∧ (health_check_tick backends probe).probed
        = probedUntilError (backends.map Prod.fst) probe
    ∧ (health_check_tick backends probe).restarts.length ≤ 1
    ∧ (∀ name s, probe name = NetOutcome.response s →
        name ∉ (health_check_tick backends probe).restarts) := by
  refine ⟨tick_restarts_eq backends probe, tick_probed_eq backends probe, ?_, ?_⟩
  · rw [tick_restarts_eq backends probe]
    exact firstNetError_length _ _
  · intro name s hres hmem
    have hm := firstNetError_mem (backends.map Prod.fst) probe name
      (tick_restarts_eq backends probe ▸ hmem)
    rw [hres] at hm
    exact NetOutcome.noConfusion hm.1

end Gateway
